import Mathlib

/-!
Verification of the Geolocation Fusion Engine of the Drone-GeoAnalysis repository.

The definitions below are a shallow embedding, over ℝ, of
`src/geo/geo_triangulation.py` (class `GeoTriangulation`) and
`src/geo/geo_correlator.py` (class `GeoCorrelator`).  Python floats are
modelled as real numbers; numpy's elementwise array operations are modelled
as operations on lists; the mutable `self.observations` dictionary is
modelled as an insertion-ordered association list threaded through the
operations.  Logging and wall-clock timestamps are ignored: no verified
claim mentions them.
-/

/-- Drone position record `{latitude, longitude, altitude}` as stored in an
observation (`drone_position` argument of `add_observation`). -/
structure DronePosition where
  latitude : ℝ
  longitude : ℝ
  altitude : ℝ

/-- Observation record appended by `GeoTriangulation.add_observation`
(the `timestamp` field of the Python dict is omitted; no claim reads it). -/
structure Observation where
  id : String
  dronePosition : DronePosition
  targetBearing : ℝ
  targetElevation : ℝ
  confidence : ℝ

/-- The engine state `self.observations`: a Python dict from target id to the
list of observations, modelled as an insertion-ordered association list. -/
abbrev GeoState := List (String × List Observation)

/-- Empty engine state (`self.observations = {}` in `__init__`). -/
def dictEmpty : GeoState := []

/-- Python dict read `self.observations[k]` / `k in self.observations`:
first entry with the given key. -/
def dictGet : GeoState → String → Option (List Observation)
  | [], _ => none
  | p :: ps, k => if p.1 = k then some p.2 else dictGet ps k

/-- Python dict assignment `d[k] = v`: updates the entry in place when the key
exists, otherwise appends the new key at the end (insertion order). -/
def dictSet : GeoState → String → List Observation → GeoState
  | [], k, v => [(k, v)]
  | p :: ps, k, v => if p.1 = k then (k, v) :: ps else p :: dictSet ps k v

/-- Python dict deletion `del d[k]`: removes the entry with the given key. -/
def dictDelete : GeoState → String → GeoState
  | [], _ => []
  | p :: ps, k => if p.1 = k then ps else p :: dictDelete ps k

/-- Observation id `f"{target_id}_{len(self.observations[target_id])}"`
generated by `add_observation`. -/
def obsId (targetId : String) (idx : Nat) : String :=
  targetId ++ "_" ++ Nat.repr idx

/-- Embedding of `GeoTriangulation.add_observation`: creates the bucket if
absent, generates the id from the current bucket length, appends the
observation, and returns the id together with the updated state. -/
def addObservation (σ : GeoState) (targetId : String) (dronePosition : DronePosition)
    (targetBearing targetElevation confidence : ℝ) : String × GeoState :=
  let cur := (dictGet σ targetId).getD []
  let observationId := obsId targetId cur.length
  let obs : Observation :=
    ⟨observationId, dronePosition, targetBearing, targetElevation, confidence⟩
  (observationId, dictSet σ targetId (cur ++ [obs]))

/-- Embedding of `GeoTriangulation.reset_target`: deletes the bucket when the
target exists and reports whether it existed. -/
def resetTarget (σ : GeoState) (targetId : String) : Bool × GeoState :=
  if (dictGet σ targetId).isSome then (true, dictDelete σ targetId) else (false, σ)

/-- Embedding of `GeoTriangulation.create_target`.  The Python method draws a
fresh id from `uuid.uuid4()`; the generated id is supplied by the caller here
(an oracle for the random generator) and the method installs an empty bucket
for it. -/
def createTarget (σ : GeoState) (newId : String) : String × GeoState :=
  (newId, dictSet σ newId [])

/-- Embedding of `GeoTriangulation.get_all_targets`: the list of keys. -/
def getAllTargets (σ : GeoState) : List String :=
  σ.map Prod.fst

/-- Error kinds of the spec's error taxonomy, mapped onto the two distinct
error dictionaries `calculate_position` can return:  `notFound` is
`{"error": f"Objetivo {target_id} no encontrado"}` and `insufficientData` is
`{"error": f"Se requieren al menos 2 observaciones (actual: {n})"}`. -/
inductive GeoError where
  | notFound : GeoError
  | insufficientData : GeoError
deriving DecidableEq

/-- Embedding of `GeoTriangulation._validate_observations`: `notFound` when
the key is absent, `insufficientData` when fewer than 2 observations exist,
otherwise no error. -/
def validateObservations (σ : GeoState) (targetId : String) : Option GeoError :=
  match dictGet σ targetId with
  | none => some GeoError.notFound
  | some l => if l.length < 2 then some GeoError.insufficientData else none

/-- Degrees to radians, `np.radians`. -/
noncomputable def radians (deg : ℝ) : ℝ := deg * Real.pi / 180

/-- Radians to degrees, `np.degrees`. -/
noncomputable def degrees (rad : ℝ) : ℝ := rad * 180 / Real.pi

/-- Embedding of `GeoTriangulation._estimate_distance` (argument `elevation`
is already in radians, as at its call site): `altitude / sin(elevation)` for
positive elevation, the 1000 m fallback otherwise, clamped to 10000 m. -/
noncomputable def estimateDistance (altitude elevation : ℝ) : ℝ :=
  min (if 0 < elevation then altitude / Real.sin elevation else 1000) 10000

/-- Earth radius constant of `_calculate_estimated_points`, in meters. -/
noncomputable def earthRadius : ℝ := 6371000

/-- Embedding of `GeoTriangulation._calculate_target_coordinates`: the
planar small-angle destination-point formula, computed in radians and
converted back to degrees. -/
noncomputable def calculateTargetCoordinates (lat lon bearing distance eR : ℝ) : ℝ × ℝ :=
  let latRad := radians lat
  let lonRad := radians lon
  let targetLatRad := latRad + (distance / eR) * Real.cos bearing
  let targetLonRad := lonRad + (distance / eR) * Real.sin bearing / Real.cos latRad
  (degrees targetLatRad, degrees targetLonRad)

/-- Extracted per-observation arrays of
`GeoTriangulation._extract_observation_data`. -/
structure ObservationData where
  positions : List (ℝ × ℝ × ℝ)
  bearings : List ℝ
  elevations : List ℝ
  weights : List ℝ

/-- Embedding of `GeoTriangulation._extract_observation_data`. -/
def extractObservationData (observations : List Observation) : ObservationData where
  positions := observations.map fun o =>
    (o.dronePosition.latitude, o.dronePosition.longitude, o.dronePosition.altitude)
  bearings := observations.map fun o => o.targetBearing
  elevations := observations.map fun o => o.targetElevation
  weights := observations.map fun o => o.confidence

/-- Embedding of `GeoTriangulation._calculate_estimated_points`: the loop
over parallel arrays is modelled as a map over their zip. -/
noncomputable def calculateEstimatedPoints (d : ObservationData) : List (ℝ × ℝ) :=
  (d.positions.zip (d.bearings.zip d.elevations)).map fun pbe =>
    let lat := pbe.1.1
    let lon := pbe.1.2.1
    let alt := pbe.1.2.2
    let bearing := radians pbe.2.1
    let elevation := radians pbe.2.2
    calculateTargetCoordinates lat lon bearing (estimateDistance alt elevation) earthRadius

/-- Weight normalization `weights / np.sum(weights)` performed by
`GeoTriangulation._calculate_weighted_average`. -/
noncomputable def normalizeWeights (weights : List ℝ) : List ℝ :=
  weights.map fun w => w / weights.sum

/-- Semantics of `np.average(values, weights=w)`: `Σ v_i w_i / Σ w_i`. -/
noncomputable def npAverage (values weights : List ℝ) : ℝ :=
  ((values.zip weights).map fun p => p.1 * p.2).sum / weights.sum

/-- Embedding of `GeoTriangulation._calculate_weighted_average`, componentwise
over the two coordinates (`np.average(..., axis=0, ...)`). -/
noncomputable def calculateWeightedAverage (points : List (ℝ × ℝ)) (weights : List ℝ) : ℝ × ℝ :=
  let nw := normalizeWeights weights
  (npAverage (points.map Prod.fst) nw, npAverage (points.map Prod.snd) nw)

/-- Euclidean distance in degree-space, `np.linalg.norm` on a 2-vector. -/
noncomputable def euclid (p q : ℝ × ℝ) : ℝ :=
  Real.sqrt ((p.1 - q.1) ^ 2 + (p.2 - q.2) ^ 2)

/-- Precision dictionary built by `_calculate_precision_metrics`. -/
structure PrecisionMetrics where
  meters : ℝ
  confidence : ℝ
  maxDeviationMeters : ℝ

/-- Embedding of `GeoTriangulation._calculate_precision_metrics`.  `np.max`
over the (nonempty, nonnegative) distance list is modelled by `foldr max 0`
and `np.average` without weights by sum over length. -/
noncomputable def calculatePrecisionMetrics (points : List (ℝ × ℝ))
    (weightedPosition : ℝ × ℝ) (numObservations : ℕ) : PrecisionMetrics :=
  let distances := points.map fun p => euclid p weightedPosition
  let maxDistance := distances.foldr max 0
  let avgDistance := distances.sum / distances.length
  let pc := 100 * (1 - avgDistance / 0.001) * Real.tanh (numObservations / 3)
  { meters := avgDistance * 111000
    confidence := max 0 (min 99 pc)
    maxDeviationMeters := maxDistance * 111000 }

/-- Position part of the result dictionary of `calculate_position`
(altitude is the hard-coded 0 of `_build_result`). -/
structure Position where
  latitude : ℝ
  longitude : ℝ
  altitude : ℝ

/-- Result dictionary of `calculate_position` as built by `_build_result`
(`timestamp` omitted; no claim reads it). -/
structure PositionEstimate where
  targetId : String
  position : Position
  precision : PrecisionMetrics
  observationsCount : ℕ

/-- Embedding of `GeoTriangulation.calculate_position`: validation followed by
the extract / estimate / fuse / metrics pipeline of the source. -/
noncomputable def calculatePosition (σ : GeoState) (targetId : String) :
    Except GeoError PositionEstimate :=
  match validateObservations σ targetId with
  | some e => Except.error e
  | none =>
    let observations := (dictGet σ targetId).getD []
    let observationData := extractObservationData observations
    let estimatedPoints := calculateEstimatedPoints observationData
    let weightedPosition := calculateWeightedAverage estimatedPoints observationData.weights
    let precisionMetrics :=
      calculatePrecisionMetrics estimatedPoints weightedPosition observations.length
    Except.ok
      { targetId := targetId
        position := ⟨weightedPosition.1, weightedPosition.2, 0⟩
        precision := precisionMetrics
        observationsCount := observations.length }

/-- State-transformer view of `calculate_position`: the method body and all
helpers it calls (`_validate_observations`, `_extract_observation_data`,
`_calculate_estimated_points`, `_estimate_distance`,
`_calculate_target_coordinates`, `_calculate_weighted_average`,
`_calculate_precision_metrics`, `_build_result`) only read
`self.observations` and never assign to it, so the state component is
returned unchanged. -/
noncomputable def calculatePositionS (σ : GeoState) (targetId : String) :
    Except GeoError PositionEstimate × GeoState :=
  (calculatePosition σ targetId, σ)

/-- Raw observation input as supplied to `add_observation` (everything the
caller passes; the id and timestamp are generated by the method). -/
structure ObsInput where
  dronePosition : DronePosition
  targetBearing : ℝ
  targetElevation : ℝ
  confidence : ℝ

/-- Feed a list of observation inputs to `add_observation` for one target,
in list order, threading the engine state. -/
def addAll (t : String) : List ObsInput → GeoState → GeoState
  | [], σ => σ
  | i :: rest, σ =>
    addAll t rest
      (addObservation σ t i.dronePosition i.targetBearing i.targetElevation i.confidence).2

/-- Binary max on the reals is left-commutative (for permutation reasoning
about `np.max`). -/
instance : LeftCommutative (α := ℝ) (β := ℝ) max :=
  ⟨fun a b c => max_left_comm a b c⟩

/-- Payload of a stored observation with the generated id stripped: exactly
the fields `calculate_position` reads. -/
def stripObs (o : Observation) : ObsInput :=
  ⟨o.dronePosition, o.targetBearing, o.targetElevation, o.confidence⟩

/-- Estimated target point of a single observation input: the composition of
`_estimate_distance` and `_calculate_target_coordinates` as performed inside
the loop of `_calculate_estimated_points`. -/
noncomputable def pointOf (i : ObsInput) : ℝ × ℝ :=
  calculateTargetCoordinates i.dronePosition.latitude i.dronePosition.longitude
    (radians i.targetBearing)
    (estimateDistance i.dronePosition.altitude (radians i.targetElevation)) earthRadius

/-- The `calculate_position` pipeline collapsed to direct aggregates over the
list of observation inputs.  Proved equal to the embedding's pipeline
(`calcPosition_eq_canonical`); used to settle order-invariance. -/
noncomputable def canonicalEstimate (t : String) (ins : List ObsInput) : PositionEstimate :=
  let wsum := (ins.map fun i => i.confidence).sum
  let nwsum := (ins.map fun i => i.confidence / wsum).sum
  let latC := (ins.map fun i => (pointOf i).1 * (i.confidence / wsum)).sum / nwsum
  let lonC := (ins.map fun i => (pointOf i).2 * (i.confidence / wsum)).sum / nwsum
  let dists := ins.map fun i => euclid (pointOf i) (latC, lonC)
  let maxD := dists.foldr max 0
  let avgD := dists.sum / dists.length
  let pc := 100 * (1 - avgD / 0.001) * Real.tanh (ins.length / 3)
  { targetId := t
    position := ⟨latC, lonC, 0⟩
    precision := ⟨avgD * 111000, max 0 (min 99 pc), maxD * 111000⟩
    observationsCount := ins.length }

/-- One call of the engine's mutating interface, for reasoning about call
sequences.  `create` carries the id that `uuid.uuid4()` would generate. -/
inductive GeoOp where
  | addObs (targetId : String) (dronePosition : DronePosition)
      (targetBearing targetElevation confidence : ℝ)
  | reset (targetId : String)
  | create (newId : String)

/-- State transition of one engine call. -/
def applyOp (σ : GeoState) : GeoOp → GeoState
  | GeoOp.addObs t p b e c => (addObservation σ t p b e c).2
  | GeoOp.reset t => (resetTarget σ t).2
  | GeoOp.create k => (createTarget σ k).2

/-- Run a sequence of engine calls from a state. -/
def runOps (σ : GeoState) : List GeoOp → GeoState
  | [] => σ
  | op :: ops => runOps (applyOp σ op) ops

/-- Observation ids returned by the `add_observation` calls for target `t`
along a call sequence, in call order. -/
def addedIds (σ : GeoState) (t : String) : List GeoOp → List String
  | [] => []
  | op :: ops =>
    (match op with
     | GeoOp.addObs u p b e c =>
       if u = t then [(addObservation σ u p b e c).1] else []
     | _ => []) ++ addedIds (applyOp σ op) t ops

/-- Number of `add_observation` calls for target `t` in a call sequence. -/
def numAdds (t : String) : List GeoOp → Nat
  | [] => 0
  | GeoOp.addObs u _ _ _ _ :: ops => (if u = t then 1 else 0) + numAdds t ops
  | _ :: ops => numAdds t ops

/-- Calls that can shrink or re-create target `t`'s bucket: a `reset_target`
of `t` or a `create_target` that allocates the id `t`. -/
def interferes (t : String) : GeoOp → Prop
  | GeoOp.reset u => u = t
  | GeoOp.create k => k = t
  | _ => False

/-- Length of target `t`'s observation bucket in a state. -/
def bucketLen (σ : GeoState) (t : String) : Nat :=
  ((dictGet σ t).getD []).length

/-- Decimal digit string of a natural number, most significant digit first:
a fuel-free mirror of core's `Nat.toDigitsCore` at base 10, used to reason
about the observation-id format. -/
def digitsChars (n : ℕ) : List Char :=
  if n < 10 then [Nat.digitChar n]
  else digitsChars (n / 10) ++ [Nat.digitChar (n % 10)]
decreasing_by exact Nat.div_lt_self (by omega) (by omega)

/-- Numeric value of a decimal digit character. -/
def digitVal (c : Char) : ℕ :=
  if c = Char.ofNat 48 then 0
  else if c = Char.ofNat 49 then 1
  else if c = Char.ofNat 50 then 2
  else if c = Char.ofNat 51 then 3
  else if c = Char.ofNat 52 then 4
  else if c = Char.ofNat 53 then 5
  else if c = Char.ofNat 54 then 6
  else if c = Char.ofNat 55 then 7
  else if c = Char.ofNat 56 then 8
  else 9

/-- Decimal decoding of a digit string, used to invert `digitsChars`. -/
def decodeDigits (l : List Char) : ℕ :=
  l.foldl (fun acc c => 10 * acc + digitVal c) 0

/-- GPS sub-dictionary of the drone telemetry (`telemetry["gps"]`); each
coordinate is `None` when the key is absent. -/
structure GpsDict where
  latitude : Option ℝ
  longitude : Option ℝ

/-- Drone telemetry dictionary as read by `GeoCorrelator`: the `gps` and
`orientation` sub-dictionaries and the `altitude` entry, each possibly
absent. -/
structure DroneTelemetry where
  gps : Option GpsDict
  altitude : Option ℝ
  orientationYaw : Option ℝ
  orientationPitch : Option ℝ
  orientationRoll : Option ℝ

/-- Python truthiness failure of an optional float: `not x` is true for a
missing value (`None`) and for the float `0.0`. -/
def optFalsy (v : Option ℝ) : Prop :=
  v = none ∨ v = some 0

noncomputable instance (v : Option ℝ) : Decidable (optFalsy v) := by
  unfold optFalsy; infer_instance

/-- Error kind of `GeoCorrelator`: the dictionary
`{"error": "Datos GPS no disponibles en telemetría"}`. -/
inductive CorrError where
  | missingGPS : CorrError
deriving DecidableEq

/-- Validated GPS data returned by `_extract_gps_data` on success. -/
structure GpsExtract where
  latitude : ℝ
  longitude : ℝ
  altitude : ℝ

/-- Embedding of `GeoCorrelator._extract_gps_data`: reads
`telemetry.get("gps", {})` and fails when `not latitude or not longitude`
(Python truthiness: absent or zero). -/
noncomputable def extractGpsData (t : DroneTelemetry) : Except CorrError GpsExtract :=
  let gps := t.gps.getD ⟨none, none⟩
  if optFalsy gps.latitude ∨ optFalsy gps.longitude then Except.error CorrError.missingGPS
  else Except.ok ⟨gps.latitude.getD 0, gps.longitude.getD 0, t.altitude.getD 0⟩

/-- Correlation status set by `_finalize_correlation_result`. -/
inductive CorrStatus where
  | highConfidence : CorrStatus
  | lowConfidence : CorrStatus
deriving DecidableEq

/-- Result dictionary of `correlate_drone_image` (timestamp and message
omitted; no claim reads them). -/
structure CorrelationResult where
  originalLatitude : ℝ
  originalLongitude : ℝ
  correctedLatitude : ℝ
  correctedLongitude : ℝ
  confidence : ℝ
  coverageRadiusMeters : ℝ
  status : CorrStatus

/-- Embedding of `GeoCorrelator._perform_correlation` composed with
`_finalize_correlation_result`: the placeholder correlation returns the fixed
confidence 0.85 and the fixed coordinate correction (+0.0001, −0.0002), the
coverage radius `altitude * 0.5`, and classifies the status against the
threshold. -/
noncomputable def performAndFinalize (gps : GpsExtract) (confidenceThreshold : ℝ) :
    CorrelationResult :=
  let correlationConfidence : ℝ := 0.85
  { originalLatitude := gps.latitude
    originalLongitude := gps.longitude
    correctedLatitude := gps.latitude + 0.0001
    correctedLongitude := gps.longitude - 0.0002
    confidence := correlationConfidence
    coverageRadiusMeters := gps.altitude * 0.5
    status :=
      if confidenceThreshold ≤ correlationConfidence then CorrStatus.highConfidence
      else CorrStatus.lowConfidence }

/-- Embedding of `GeoCorrelator.correlate_drone_image` (the image bytes play
no role in the computation: the satellite lookup is a stub returning `None`
and only produces a log warning). -/
noncomputable def correlateDroneImage (telemetry : DroneTelemetry)
    (confidenceThreshold : ℝ) : Except CorrError CorrelationResult :=
  match extractGpsData telemetry with
  | Except.error e => Except.error e
  | Except.ok gps => Except.ok (performAndFinalize gps confidenceThreshold)

/-- Extracted telemetry of `GeoCorrelator._extract_telemetry_data`, with the
source's defaults (latitude/longitude 0, altitude 100, orientation 0). -/
structure TelemetryData where
  latitude : ℝ
  longitude : ℝ
  altitude : ℝ
  yaw : ℝ
  pitch : ℝ
  roll : ℝ

/-- Embedding of `GeoCorrelator._extract_telemetry_data`. -/
def extractTelemetryData (t : DroneTelemetry) : TelemetryData :=
  let gps := t.gps.getD ⟨none, none⟩
  { latitude := gps.latitude.getD 0
    longitude := gps.longitude.getD 0
    altitude := t.altitude.getD 100
    yaw := t.orientationYaw.getD 0
    pitch := t.orientationPitch.getD 0
    roll := t.orientationRoll.getD 0 }

/-- Embedding of `GeoCorrelator._apply_rotation`: rotation of the pixel
offset by the yaw angle (degrees, converted to radians). -/
noncomputable def applyRotation (x y yawDegrees : ℝ) : ℝ × ℝ :=
  let yawRad := radians yawDegrees
  (x * Real.cos yawRad - y * Real.sin yawRad, x * Real.sin yawRad + y * Real.cos yawRad)

/-- Embedding of `GeoCorrelator._calculate_coordinate_offsets`: the pair
`(lat_offset, lng_offset)`. -/
def calculateCoordinateOffsets (rotated : ℝ × ℝ) (scaleFactor : ℝ) : ℝ × ℝ :=
  (rotated.2 * scaleFactor * 0.00001, rotated.1 * scaleFactor * 0.00001)

/-- Result of `calculate_real_coordinates`. -/
structure PixelGeoResult where
  latitude : ℝ
  longitude : ℝ
  altitude : ℝ
  accuracyMeters : ℝ

/-- Embedding of `GeoCorrelator._transform_pixel_to_coordinates`. -/
noncomputable def transformPixelToCoordinates (pixel : ℝ × ℝ) (t : TelemetryData) :
    PixelGeoResult :=
  let scaleFactor := t.altitude / 1000
  let rotated := applyRotation pixel.1 pixel.2 t.yaw
  let offsets := calculateCoordinateOffsets rotated scaleFactor
  { latitude := t.latitude - offsets.1
    longitude := t.longitude + offsets.2
    altitude := t.altitude
    accuracyMeters := scaleFactor * 10 }

/-- Embedding of `GeoCorrelator.calculate_real_coordinates`. -/
noncomputable def calculateRealCoordinates (pixel : ℝ × ℝ) (telemetry : DroneTelemetry) :
    PixelGeoResult :=
  transformPixelToCoordinates pixel (extractTelemetryData telemetry)

/-- Target id used in concrete instances below. -/
def targetA : String := "tA"

/-- Second target id used in concrete instances below. -/
def targetB : String := "tB"

/-- First observation of the spec's Scenario A: drone at (40, −74, 100),
bearing 0°, elevation 30°, confidence 1 (id as generated by
`add_observation` for the first observation of `targetA`). -/
noncomputable def scenarioObs1 : Observation :=
  ⟨obsId targetA 0, ⟨40, -74, 100⟩, 0, 30, 1⟩

/-- Second observation of the spec's Scenario A: same pose, bearing 90°. -/
noncomputable def scenarioObs2 : Observation :=
  ⟨obsId targetA 1, ⟨40, -74, 100⟩, 90, 30, 1⟩

/-- Engine state holding exactly the two observations of Scenario A. -/
noncomputable def scenarioState : GeoState :=
  [(targetA, [scenarioObs1, scenarioObs2])]

/-! ### Helper lemmas -/

/-- Sum of a list divided elementwise equals the divided sum. -/
theorem list_sum_map_div (l : List ℝ) (b : ℝ) :
    (l.map fun x => x / b).sum = l.sum / b := by
  induction l with
  | nil => simp
  | cons a l ih => simp [ih, add_div]

/-! ### C5 -/

/-- C5: for every altitude and elevation, the distance estimate of
`_estimate_distance` never exceeds 10000 m; for elevation ≤ 0 it is exactly
the 1000 m fallback, and for positive elevation it is `altitude/sin(elevation)`
clamped to 10000 m. -/
theorem estimateDistance_spec (altitude elevation : ℝ) :
    estimateDistance altitude elevation ≤ 10000 ∧
    (elevation ≤ 0 → estimateDistance altitude elevation = 1000) ∧
    (0 < elevation →
      estimateDistance altitude elevation = min (altitude / Real.sin elevation) 10000) := by
  refine ⟨min_le_right _ _, ?_, ?_⟩
  · intro h
    rw [estimateDistance, if_neg (not_lt.mpr h)]
    norm_num
  · intro h
    rw [estimateDistance, if_pos h]

/-- Witness for C5 at altitude 100 and elevation −1. -/
theorem estimateDistance_spec_witness : estimateDistance 100 (-1) = 1000 :=
  (estimateDistance_spec 100 (-1)).2.1 (by norm_num)

/-! ### C4 -/

/-- C4: whenever the target exists with at least two observations,
`calculate_position` succeeds and the returned confidence lies in [0, 99] and
equals `100 * (1 - avg_distance_deg/0.001) * tanh(observation_count/3)`
clamped to that interval (`avg_distance_deg` is `meters / 111000`). -/
theorem confidence_in_range (σ : GeoState) (t : String) (l : List Observation)
    (hget : dictGet σ t = some l) (hlen : 2 ≤ l.length) :
    ∃ est, calculatePosition σ t = Except.ok est ∧
      0 ≤ est.precision.confidence ∧ est.precision.confidence ≤ 99 ∧
      est.precision.confidence =
        max 0 (min 99 (100 * (1 - est.precision.meters / 111000 / 0.001) *
          Real.tanh (est.observationsCount / 3))) := by
  have hv : validateObservations σ t = none := by
    simp [validateObservations, hget, not_lt.mpr hlen]
  simp only [calculatePosition, hv, hget]
  refine ⟨_, rfl, le_max_left _ _, max_le (by norm_num) (min_le_left _ _), ?_⟩
  simp only [calculatePrecisionMetrics]
  rw [mul_div_assoc, div_self (by norm_num : (111000 : ℝ) ≠ 0), mul_one]

/-- Witness for C4 on the two-observation Scenario A state. -/
theorem confidence_in_range_witness :
    ∃ est, calculatePosition scenarioState targetA = Except.ok est ∧
      0 ≤ est.precision.confidence ∧ est.precision.confidence ≤ 99 ∧
      est.precision.confidence =
        max 0 (min 99 (100 * (1 - est.precision.meters / 111000 / 0.001) *
          Real.tanh (est.observationsCount / 3))) :=
  confidence_in_range scenarioState targetA [scenarioObs1, scenarioObs2]
    (by simp [scenarioState, dictGet]) (by simp)

/-! ### C10 -/

/-- C10: `calculate_position` never mutates the engine state: the state after
a call (error or success) is the state before it, the returned value is the
pure function of the state, and a repeated call returns the same result. -/
theorem calculatePosition_frame (σ : GeoState) (t : String) :
    (calculatePositionS σ t).2 = σ ∧
    (calculatePositionS σ t).1 = calculatePosition σ t ∧
    calculatePositionS ((calculatePositionS σ t).2) t = calculatePositionS σ t :=
  ⟨rfl, rfl, rfl⟩

/-! ### C7 -/

/-- C7: with yaw 0 the rotation of `_apply_rotation` is the identity and
`_transform_pixel_to_coordinates` returns the axis-aligned offsets
`latitude = drone_lat - y*(altitude/1000)*1e-5`,
`longitude = drone_lon + x*(altitude/1000)*1e-5`, and
`accuracy_meters = (altitude/1000)*10`. -/
theorem pixel_transform_yaw_zero (x y : ℝ) (t : TelemetryData) (h : t.yaw = 0) :
    applyRotation x y t.yaw = (x, y) ∧
    transformPixelToCoordinates (x, y) t =
      ⟨t.latitude - y * (t.altitude / 1000) * 0.00001,
       t.longitude + x * (t.altitude / 1000) * 0.00001,
       t.altitude, t.altitude / 1000 * 10⟩ := by
  have hrad : radians 0 = 0 := by simp [radians]
  have hrot : applyRotation x y t.yaw = (x, y) := by
    rw [h, applyRotation, hrad]
    simp
  refine ⟨hrot, ?_⟩
  rw [transformPixelToCoordinates]
  simp only [hrot, calculateCoordinateOffsets]

/-- Witness for C7 at pixel (3, 4) and a concrete zero-yaw telemetry. -/
theorem pixel_transform_yaw_zero_witness :
    transformPixelToCoordinates (3, 4) ⟨40.7128, -74.006, 100, 0, 0, 0⟩ =
      ⟨40.7128 - 4 * (100 / 1000) * 0.00001, -74.006 + 3 * (100 / 1000) * 0.00001,
       100, 100 / 1000 * 10⟩ :=
  (pixel_transform_yaw_zero 3 4 ⟨40.7128, -74.006, 100, 0, 0, 0⟩ rfl).2

/-! ### C8 -/

/-- C8 counterexample: with all confidences 0 (each in the documented [0,1]
range) the normalized weights do not sum to 1, and a single zero weight does
not normalize to 1.0.  (In numpy the division 0/0 yields `nan`, so the sum is
`nan`; in the real-number embedding division by zero yields 0: in both
semantics the sum is not 1.) -/
theorem normalizeWeights_counterexample :
    (normalizeWeights [0, 0]).sum ≠ 1 ∧ normalizeWeights [0] ≠ [1] := by
  constructor
  · norm_num [normalizeWeights]
  · norm_num [normalizeWeights]

/-- C8 amended: whenever the confidences have nonzero sum, the normalized
weights sum to 1, and a single nonzero weight normalizes to 1.0. -/
theorem normalizeWeights_sum_one (w : List ℝ) (c : ℝ) :
    (w.sum ≠ 0 → (normalizeWeights w).sum = 1) ∧
    (c ≠ 0 → normalizeWeights [c] = [1]) := by
  constructor
  · intro h
    rw [normalizeWeights, list_sum_map_div, div_self h]
  · intro hc
    simp [normalizeWeights, div_self hc]

/-- Witness for C8 at weights [2, 2] and single weight 5. -/
theorem normalizeWeights_sum_one_witness :
    (normalizeWeights [2, 2]).sum = 1 ∧ normalizeWeights [5] = [1] :=
  ⟨(normalizeWeights_sum_one [2, 2] 5).1 (by norm_num),
   (normalizeWeights_sum_one [2, 2] 5).2 (by norm_num)⟩

/-! ### C3 -/

/-- C3 counterexample: a target freshly created by `create_target` has no
observations, yet `calculate_position` returns the `InsufficientData` error
("Se requieren al menos 2 observaciones"), not `NotFound` as the claim
states. -/
theorem calculatePosition_empty_target_counterexample :
    dictGet (createTarget dictEmpty targetA).2 targetA = some [] ∧
    calculatePosition (createTarget dictEmpty targetA).2 targetA =
      Except.error GeoError.insufficientData ∧
    calculatePosition (createTarget dictEmpty targetA).2 targetA ≠
      Except.error GeoError.notFound := by
  refine ⟨by simp [createTarget, dictEmpty, dictSet, dictGet], ?_, ?_⟩
  · simp [calculatePosition, validateObservations, createTarget, dictEmpty, dictSet, dictGet]
  · simp [calculatePosition, validateObservations, createTarget, dictEmpty, dictSet, dictGet]

/-- C3 amended: `calculate_position` fails with `NotFound` exactly when the
target id is absent from the store, fails with `InsufficientData` when the
target exists with fewer than 2 observations, and with 2 or more observations
returns a computed estimate and no error. -/
theorem calculatePosition_errors (σ : GeoState) (t : String) :
    (dictGet σ t = none → calculatePosition σ t = Except.error GeoError.notFound) ∧
    (∀ l, dictGet σ t = some l → l.length < 2 →
      calculatePosition σ t = Except.error GeoError.insufficientData) ∧
    (∀ l, dictGet σ t = some l → 2 ≤ l.length →
      ∃ est, calculatePosition σ t = Except.ok est) := by
  refine ⟨?_, ?_, ?_⟩
  · intro h
    simp [calculatePosition, validateObservations, h]
  · intro l h hlen
    simp [calculatePosition, validateObservations, h, hlen]
  · intro l h hlen
    have hv : validateObservations σ t = none := by
      simp [validateObservations, h, not_lt.mpr hlen]
    simp only [calculatePosition, hv, h]
    exact ⟨_, rfl⟩

/-- Witness for C3: absent id gives `NotFound`, and the two-observation
Scenario A state gives a computed estimate. -/
theorem calculatePosition_errors_witness :
    calculatePosition dictEmpty targetA = Except.error GeoError.notFound ∧
    ∃ est, calculatePosition scenarioState targetA = Except.ok est :=
  ⟨(calculatePosition_errors dictEmpty targetA).1 rfl,
   (calculatePosition_errors scenarioState targetA).2.2 [scenarioObs1, scenarioObs2]
     (by simp [scenarioState, dictGet]) (by simp)⟩

/-! ### C6 -/

/-- C6 counterexample: a telemetry whose GPS latitude is present and equal to
0.0 (a valid equator coordinate) still makes `correlate_drone_image` fail
with `MissingGPS`, because the source tests `not latitude` (Python
truthiness) rather than presence. -/
theorem correlate_zero_latitude_counterexample :
    ((⟨some ⟨some 0, some 10⟩, some 100, none, none, none⟩ : DroneTelemetry).gps.getD
        ⟨none, none⟩).latitude = some 0 ∧
    correlateDroneImage ⟨some ⟨some 0, some 10⟩, some 100, none, none, none⟩ 0.6 =
      Except.error CorrError.missingGPS := by
  refine ⟨rfl, ?_⟩
  simp [correlateDroneImage, extractGpsData, optFalsy]

/-- C6 amended: `correlate_drone_image` fails with `MissingGPS` if and only
if the latitude or the longitude entry of the pose is missing or is the float
0.0 (Python-falsy); with both present and nonzero no error is returned. -/
theorem correlate_missing_gps_iff (telemetry : DroneTelemetry) (threshold : ℝ) :
    correlateDroneImage telemetry threshold = Except.error CorrError.missingGPS ↔
      (optFalsy (telemetry.gps.getD ⟨none, none⟩).latitude ∨
       optFalsy (telemetry.gps.getD ⟨none, none⟩).longitude) := by
  rw [correlateDroneImage, extractGpsData]
  by_cases h :
      optFalsy (telemetry.gps.getD ⟨none, none⟩).latitude ∨
      optFalsy (telemetry.gps.getD ⟨none, none⟩).longitude
  · rw [if_pos h]
    simpa using h
  · rw [if_neg h]
    simpa using h

/-- Witness for C6: missing longitude triggers the error. -/
theorem correlate_missing_gps_iff_witness :
    correlateDroneImage ⟨some ⟨some 1, none⟩, none, none, none, none⟩ 0.6 =
      Except.error CorrError.missingGPS :=
  (correlate_missing_gps_iff ⟨some ⟨some 1, none⟩, none, none, none, none⟩ 0.6).mpr
    (Or.inr (Or.inl rfl))

/-! ### C1 -/

/-- Converting degrees to radians and back is the identity. -/
theorem degrees_radians (x : ℝ) : degrees (radians x) = x := by
  rw [degrees, radians]
  field_simp

/-- Thirty degrees in radians. -/
theorem radians_thirty : radians 30 = Real.pi / 6 := by
  rw [radians]; ring

/-- Ninety degrees in radians. -/
theorem radians_ninety : radians 90 = Real.pi / 2 := by
  rw [radians]; ring

/-- Forty degrees in radians. -/
theorem radians_forty : radians 40 = 2 * Real.pi / 9 := by
  rw [radians]; ring

/-- Zero degrees in radians. -/
theorem radians_zero : radians 0 = 0 := by
  rw [radians]; ring

/-- Scenario A distance: altitude 100 and elevation 30° give exactly
`100 / sin(30°) = 200` m. -/
theorem estimateDistance_scenarioA : estimateDistance 100 (radians 30) = 200 := by
  rw [radians_thirty, estimateDistance,
    if_pos (by positivity : (0 : ℝ) < Real.pi / 6), Real.sin_pi_div_six]
  norm_num

/-- Numeric enclosure of `cos(40°)` from the quartic Taylor bound. -/
theorem cos_forty_bounds :
    0.74 ≤ Real.cos (2 * Real.pi / 9) ∧ Real.cos (2 * Real.pi / 9) ≤ 0.77 := by
  have hπ₁ : 3.1415 < Real.pi := Real.pi_gt_d4
  have hπ₂ : Real.pi < 3.1416 := Real.pi_lt_d4
  set x : ℝ := 2 * Real.pi / 9 with hx
  have hx₀ : 0.698 ≤ x := by rw [hx]; nlinarith
  have hx₁ : x ≤ 0.6982 := by rw [hx]; nlinarith
  have hxnn : (0 : ℝ) ≤ x := by nlinarith
  have hxabs : |x| ≤ 1 := by rw [abs_of_nonneg hxnn]; nlinarith
  have hb := Real.cos_bound hxabs
  rw [abs_of_nonneg hxnn] at hb
  have hb' := abs_le.mp hb
  have hx2u : x ^ 2 ≤ 0.48748 := by nlinarith
  have hx2l : 0.48720 ≤ x ^ 2 := by nlinarith
  have hx4u : x ^ 4 ≤ 0.23764 := by nlinarith [sq_nonneg (x ^ 2 - 0.48748)]
  have hx4l : (0 : ℝ) ≤ x ^ 4 := by positivity
  constructor
  · nlinarith [hb'.1]
  · nlinarith [hb'.2]

/-- Estimated point of the first Scenario A observation in closed form. -/
theorem scenarioA_point1 :
    calculateTargetCoordinates 40 (-74) (radians 0) (estimateDistance 100 (radians 30))
      earthRadius = (40 + 36000 / (6371000 * Real.pi), -74) := by
  rw [calculateTargetCoordinates, estimateDistance_scenarioA, radians_zero, earthRadius,
    Real.cos_zero, Real.sin_zero]
  simp only [Prod.mk.injEq]
  constructor
  · rw [degrees, radians]
    have hπ : Real.pi ≠ 0 := Real.pi_ne_zero
    field_simp
    ring
  · rw [mul_zero, zero_div, add_zero, degrees_radians]

/-- Estimated point of the second Scenario A observation in closed form. -/
theorem scenarioA_point2 :
    calculateTargetCoordinates 40 (-74) (radians 90) (estimateDistance 100 (radians 30))
      earthRadius =
      (40, -74 + 36000 / (6371000 * Real.pi * Real.cos (2 * Real.pi / 9))) := by
  have hcos : Real.cos (radians 40) = Real.cos (2 * Real.pi / 9) := by rw [radians_forty]
  have hcosne : Real.cos (2 * Real.pi / 9) ≠ 0 := by
    have := cos_forty_bounds.1
    intro h
    rw [h] at this
    norm_num at this
  rw [calculateTargetCoordinates, estimateDistance_scenarioA, radians_ninety, earthRadius,
    Real.cos_pi_div_two, Real.sin_pi_div_two, hcos]
  simp only [Prod.mk.injEq]
  constructor
  · rw [mul_zero, add_zero, degrees_radians]
  · rw [degrees, radians]
    have hπ : Real.pi ≠ 0 := Real.pi_ne_zero
    field_simp
    ring

/-- Numeric enclosure of the latitude increment `36000/(6371000·π)` (in
degrees) of the first Scenario A observation. -/
theorem scenarioA_latitude_increment_bounds :
    0.0017 ≤ 36000 / (6371000 * Real.pi) ∧ 36000 / (6371000 * Real.pi) ≤ 0.0019 := by
  have hπ₁ : 3.14 < Real.pi := Real.pi_gt_d2
  have hπ₂ : Real.pi < 3.15 := Real.pi_lt_d2
  have hd : (0 : ℝ) < 6371000 * Real.pi := by positivity
  constructor
  · rw [le_div_iff₀ hd]; nlinarith
  · rw [div_le_iff₀ hd]; nlinarith

/-- Numeric enclosure of the longitude increment
`36000/(6371000·π·cos(40°))` (in degrees) of the second Scenario A
observation. -/
theorem scenarioA_longitude_increment_bounds :
    0.0023 ≤ 36000 / (6371000 * Real.pi * Real.cos (2 * Real.pi / 9)) ∧
    36000 / (6371000 * Real.pi * Real.cos (2 * Real.pi / 9)) ≤ 0.00245 := by
  have hπ₁ : 3.14 < Real.pi := Real.pi_gt_d2
  have hπ₂ : Real.pi < 3.15 := Real.pi_lt_d2
  have hc := cos_forty_bounds
  have hd : (0 : ℝ) < 6371000 * Real.pi * Real.cos (2 * Real.pi / 9) := by
    have : (0 : ℝ) < Real.cos (2 * Real.pi / 9) := by nlinarith [hc.1]
    positivity
  constructor
  · rw [le_div_iff₀ hd]; nlinarith [hc.1, hc.2]
  · rw [div_le_iff₀ hd]; nlinarith [hc.1, hc.2]

/-- Weighted fusion of the two Scenario A points with equal unit confidences
is the midpoint. -/
theorem scenarioA_fusion (a b : ℝ) :
    calculateWeightedAverage [(40 + a, -74), (40, -74 + b)] [1, 1] =
      (40 + a / 2, -74 + b / 2) := by
  simp only [calculateWeightedAverage, normalizeWeights, npAverage, List.map_cons,
    List.map_nil, List.sum_cons, List.sum_nil, List.zip_cons_cons, List.zip_nil_right,
    Prod.mk.injEq]
  norm_num
  constructor <;> ring

/-- C1: on Scenario A (drone at (40, −74, 100); observations with bearing 0°
and 90°, both at elevation 30° and confidence 1) the engine derives a
per-observation distance of exactly 200 m (`100/sin(30°)`), per-observation
estimated points within 10⁻⁴ degrees of (40.0018, −74) and (40, −73.99765),
and a fused position within 10⁻⁴ degrees of (40.0009, −73.99883). -/
theorem scenarioA_triangulation :
    estimateDistance 100 (radians 30) = 200 ∧
    (∃ p1 p2,
      calculateEstimatedPoints (extractObservationData [scenarioObs1, scenarioObs2]) =
        [p1, p2] ∧
      |p1.1 - 40.0018| ≤ 0.0001 ∧ p1.2 = -74 ∧
      p2.1 = 40 ∧ |p2.2 + 73.99765| ≤ 0.0001) ∧
    (∃ est, calculatePosition scenarioState targetA = Except.ok est ∧
      |est.position.latitude - 40.0009| ≤ 0.0001 ∧
      |est.position.longitude + 73.99883| ≤ 0.0001) := by
  have hA := scenarioA_latitude_increment_bounds
  have hB := scenarioA_longitude_increment_bounds
  have hpts : calculateEstimatedPoints (extractObservationData [scenarioObs1, scenarioObs2]) =
      [(40 + 36000 / (6371000 * Real.pi), -74),
       (40, -74 + 36000 / (6371000 * Real.pi * Real.cos (2 * Real.pi / 9)))] := by
    simp only [extractObservationData, scenarioObs1, scenarioObs2, List.map_cons,
      List.map_nil, calculateEstimatedPoints, List.zip_cons_cons, List.zip_nil_right]
    rw [scenarioA_point1, scenarioA_point2]
  refine ⟨estimateDistance_scenarioA, ?_, ?_⟩
  · refine ⟨_, _, hpts, ?_, rfl, rfl, ?_⟩
    · rw [abs_le]; constructor <;> [linarith [hA.1]; linarith [hA.2]]
    · rw [abs_le]; constructor <;> [linarith [hB.1]; linarith [hB.2]]
  · have hget : dictGet scenarioState targetA = some [scenarioObs1, scenarioObs2] := by
      simp [scenarioState, dictGet]
    have hv : validateObservations scenarioState targetA = none := by
      simp [validateObservations, hget]
    have hw : (extractObservationData [scenarioObs1, scenarioObs2]).weights = [1, 1] := by
      simp [extractObservationData, scenarioObs1, scenarioObs2]
    simp only [calculatePosition, hv, hget, Option.getD_some]
    refine ⟨_, rfl, ?_, ?_⟩
    · simp only [hpts, hw, scenarioA_fusion]
      rw [abs_le]; constructor <;> [linarith [hA.1]; linarith [hA.2]]
    · simp only [hpts, hw, scenarioA_fusion]
      rw [abs_le]; constructor <;> [linarith [hB.1]; linarith [hB.2]]

/-! ### C2 -/

/-- Setting a key makes it present with the given value. -/
theorem dictGet_dictSet_self (σ : GeoState) (k : String) (v : List Observation) :
    dictGet (dictSet σ k v) k = some v := by
  induction σ with
  | nil => simp [dictSet, dictGet]
  | cons p ps ih =>
    by_cases h : p.1 = k
    · simp [dictSet, dictGet, h]
    · simp [dictSet, dictGet, h, ih]

/-- Stored observation payloads after feeding a list of inputs to a target
already present in the store. -/
theorem addAll_spec (t : String) :
    ∀ (ins : List ObsInput) (σ : GeoState) (cur : List Observation),
      dictGet σ t = some cur →
      ∃ l, dictGet (addAll t ins σ) t = some l ∧
        l.map stripObs = cur.map stripObs ++ ins := by
  intro ins
  induction ins with
  | nil =>
    intro σ cur h
    exact ⟨cur, h, by simp⟩
  | cons i rest ih =>
    intro σ cur h
    rw [addAll]
    have hstep :
        (addObservation σ t i.dronePosition i.targetBearing i.targetElevation i.confidence).2 =
        dictSet σ t (cur ++ [⟨obsId t cur.length, i.dronePosition, i.targetBearing,
          i.targetElevation, i.confidence⟩]) := by
      simp [addObservation, h]
    rw [hstep]
    obtain ⟨l, hl, hs⟩ := ih _ _ (dictGet_dictSet_self σ t _)
    refine ⟨l, hl, ?_⟩
    rw [hs]
    simp [stripObs]

/-- Stored observation payloads after feeding a nonempty list of inputs to a
fresh engine: exactly the inputs, in order. -/
theorem addAll_from_empty (t : String) (i : ObsInput) (rest : List ObsInput) :
    ∃ l, dictGet (addAll t (i :: rest) dictEmpty) t = some l ∧
      l.map stripObs = i :: rest := by
  rw [addAll]
  have hstep :
      (addObservation dictEmpty t i.dronePosition i.targetBearing i.targetElevation
        i.confidence).2 =
      dictSet dictEmpty t [⟨obsId t 0, i.dronePosition, i.targetBearing,
        i.targetElevation, i.confidence⟩] := by
    simp [addObservation, dictEmpty, dictGet]
  rw [hstep]
  obtain ⟨l, hl, hs⟩ := addAll_spec t rest _ _ (dictGet_dictSet_self _ t _)
  refine ⟨l, hl, ?_⟩
  rw [hs]
  simp [stripObs]

/-- The success branch of `calculate_position` collapses to the canonical
aggregate form over the stored observation payloads. -/
theorem calcPosition_eq_canonical (σ : GeoState) (t : String) (l : List Observation)
    (hget : dictGet σ t = some l) (hlen : 2 ≤ l.length) :
    calculatePosition σ t = Except.ok (canonicalEstimate t (l.map stripObs)) := by
  have hv : validateObservations σ t = none := by
    simp [validateObservations, hget, not_lt.mpr hlen]
  simp only [calculatePosition, hv, hget, Option.getD_some]
  congr 1
  simp only [canonicalEstimate, extractObservationData, calculateEstimatedPoints,
    calculateWeightedAverage, normalizeWeights, npAverage, calculatePrecisionMetrics,
    List.zip_map', List.map_map, List.length_map, Function.comp_def, stripObs, pointOf]

/-- The canonical aggregate form is invariant under permutation of the
observation inputs. -/
theorem canonicalEstimate_perm (t : String) {ins₁ ins₂ : List ObsInput}
    (h : ins₁.Perm ins₂) : canonicalEstimate t ins₁ = canonicalEstimate t ins₂ := by
  have hsum : ∀ f : ObsInput → ℝ, (ins₁.map f).sum = (ins₂.map f).sum :=
    fun f => (h.map f).sum_eq
  have hfold : ∀ f : ObsInput → ℝ, (ins₁.map f).foldr max 0 = (ins₂.map f).foldr max 0 :=
    fun f => (h.map f).foldr_eq 0
  have hlen : ins₁.length = ins₂.length := h.length_eq
  simp only [canonicalEstimate, List.length_map, hsum, hfold, hlen]

/-- C2: `calculate_position` is invariant under the insertion order of the
observations: feeding the same multiset of observation inputs to a fresh
engine in any two orders yields identical results (identical positions,
precision metrics and observation counts, or the identical error). -/
theorem calculatePosition_order_invariant (t : String) (ins₁ ins₂ : List ObsInput)
    (h : ins₁.Perm ins₂) :
    calculatePosition (addAll t ins₁ dictEmpty) t =
      calculatePosition (addAll t ins₂ dictEmpty) t := by
  cases ins₁ with
  | nil =>
    have h2 : ins₂ = [] := List.perm_nil.mp h.symm
    rw [h2]
  | cons i rest =>
    cases ins₂ with
    | nil => exact absurd (List.perm_nil.mp h) (by simp)
    | cons j rest2 =>
      obtain ⟨l₁, hget₁, hs₁⟩ := addAll_from_empty t i rest
      obtain ⟨l₂, hget₂, hs₂⟩ := addAll_from_empty t j rest2
      have hlen₁ : l₁.length = (i :: rest).length := by
        have := congrArg List.length hs₁
        simpa using this
      have hlen₂ : l₂.length = (j :: rest2).length := by
        have := congrArg List.length hs₂
        simpa using this
      have hlens : (i :: rest).length = (j :: rest2).length := h.length_eq
      by_cases h2 : 2 ≤ l₁.length
      · have h2' : 2 ≤ l₂.length := by omega
        rw [calcPosition_eq_canonical _ t l₁ hget₁ h2,
          calcPosition_eq_canonical _ t l₂ hget₂ h2']
        exact congrArg Except.ok (by rw [hs₁, hs₂]; exact canonicalEstimate_perm t h)
      · have hlt₁ : l₁.length < 2 := not_le.mp h2
        have hlt₂ : l₂.length < 2 := by omega
        have hv₁ : validateObservations (addAll t (i :: rest) dictEmpty) t =
            some GeoError.insufficientData := by
          simp [validateObservations, hget₁, hlt₁]
        have hv₂ : validateObservations (addAll t (j :: rest2) dictEmpty) t =
            some GeoError.insufficientData := by
          simp [validateObservations, hget₂, hlt₂]
        simp only [calculatePosition, hv₁, hv₂]

/-- Witness for C2 on two concrete observation inputs in swapped orders. -/
theorem calculatePosition_order_invariant_witness :
    calculatePosition
        (addAll targetA
          [⟨⟨40, -74, 100⟩, 0, 30, 1⟩, ⟨⟨41, -75, 120⟩, 90, 45, 0.5⟩] dictEmpty) targetA =
      calculatePosition
        (addAll targetA
          [⟨⟨41, -75, 120⟩, 90, 45, 0.5⟩, ⟨⟨40, -74, 100⟩, 0, 30, 1⟩] dictEmpty) targetA :=
  calculatePosition_order_invariant targetA
    [⟨⟨40, -74, 100⟩, 0, 30, 1⟩, ⟨⟨41, -75, 120⟩, 90, 45, 0.5⟩]
    [⟨⟨41, -75, 120⟩, 90, 45, 0.5⟩, ⟨⟨40, -74, 100⟩, 0, 30, 1⟩]
    (List.Perm.swap (⟨⟨41, -75, 120⟩, 90, 45, 0.5⟩ : ObsInput)
      (⟨⟨40, -74, 100⟩, 0, 30, 1⟩ : ObsInput) [])

/-! ### C9 -/

/-- Unfolding of `digitsChars` below 10. -/
theorem digitsChars_lt (n : ℕ) (h : n < 10) : digitsChars n = [Nat.digitChar n] := by
  rw [digitsChars, if_pos h]

/-- Unfolding of `digitsChars` at 10 and above. -/
theorem digitsChars_ge (n : ℕ) (h : ¬ n < 10) :
    digitsChars n = digitsChars (n / 10) ++ [Nat.digitChar (n % 10)] := by
  rw [digitsChars, if_neg h]

/-- Core's fuelled digit printer agrees with `digitsChars` whenever the fuel
exceeds the number being printed. -/
theorem toDigitsCore_eq_digitsChars :
    ∀ (fuel n : ℕ) (acc : List Char), n < fuel →
      Nat.toDigitsCore 10 fuel n acc = digitsChars n ++ acc := by
  intro fuel
  induction fuel with
  | zero => intro n acc h; exact absurd h (Nat.not_lt_zero n)
  | succ fuel ih =>
    intro n acc h
    simp only [Nat.toDigitsCore]
    by_cases h0 : n / 10 = 0
    · have hm : n % 10 < 10 := Nat.mod_lt _ (by omega)
      have hdm := Nat.div_add_mod n 10
      have hn : n < 10 := by omega
      rw [if_pos h0, digitsChars_lt n hn, Nat.mod_eq_of_lt hn]
      simp
    · have hn : ¬ n < 10 := fun hlt => h0 (Nat.div_eq_of_lt hlt)
      have h1 : n / 10 < n := Nat.div_lt_self (by omega) (by omega)
      rw [if_neg h0, ih (n / 10) (Nat.digitChar (n % 10) :: acc) (by omega),
        digitsChars_ge n hn]
      simp

/-- Value of a digit character produced by `Nat.digitChar` below 10. -/
theorem digitVal_digitChar (n : ℕ) (h : n < 10) : digitVal (Nat.digitChar n) = n := by
  interval_cases n <;> decide

/-- Folding the decimal decoder over a digit string recovers the number on
top of the scaled accumulator. -/
theorem foldl_digitsChars (n : ℕ) :
    ∀ a : ℕ, (digitsChars n).foldl (fun acc c => 10 * acc + digitVal c) a =
      a * 10 ^ (digitsChars n).length + n := by
  induction n using Nat.strong_induction_on with
  | _ n ih =>
    intro a
    by_cases h : n < 10
    · rw [digitsChars_lt n h]
      simp only [List.foldl_cons, List.foldl_nil, List.length_cons, List.length_nil]
      rw [digitVal_digitChar n h]
      ring
    · have h1 : n / 10 < n := Nat.div_lt_self (by omega) (by omega)
      rw [digitsChars_ge n h, List.foldl_append, ih (n / 10) h1 a]
      simp only [List.foldl_cons, List.foldl_nil, List.length_append, List.length_cons,
        List.length_nil]
      rw [digitVal_digitChar (n % 10) (Nat.mod_lt _ (by omega))]
      have hmod : 10 * (n / 10) + n % 10 = n := by omega
      calc 10 * (a * 10 ^ (digitsChars (n / 10)).length + n / 10) + n % 10
          = a * (10 ^ (digitsChars (n / 10)).length * 10) + (10 * (n / 10) + n % 10) := by
            ring
        _ = a * 10 ^ ((digitsChars (n / 10)).length + (0 + 1)) + n := by
            rw [hmod, Nat.zero_add, pow_succ]

/-- Decoding the decimal digit string of a number recovers the number. -/
theorem decodeDigits_digitsChars (n : ℕ) : decodeDigits (digitsChars n) = n := by
  rw [decodeDigits, foldl_digitsChars n 0]
  simp

/-- The decimal digit string determines the number. -/
theorem digitsChars_injective : Function.Injective digitsChars := fun m n h => by
  rw [← decodeDigits_digitsChars m, ← decodeDigits_digitsChars n, h]

/-- The decimal representation `Nat.repr` used by the observation-id format
string is injective. -/
theorem natRepr_injective : Function.Injective Nat.repr := fun m n h => by
  have hdata : Nat.toDigits 10 m = Nat.toDigits 10 n := by
    have := congrArg String.data h
    simpa [Nat.repr, List.asString] using this
  have hm := toDigitsCore_eq_digitsChars (m + 1) m [] (Nat.lt_succ_self m)
  have hn := toDigitsCore_eq_digitsChars (n + 1) n [] (Nat.lt_succ_self n)
  rw [Nat.toDigits, hm, Nat.toDigits, hn, List.append_nil, List.append_nil] at hdata
  exact digitsChars_injective hdata

/-- Observation ids of one target with distinct sequence indices are
distinct strings. -/
theorem obsId_injective (t : String) : Function.Injective (obsId t) := fun a b h => by
  have hdata := congrArg String.data h
  simp only [obsId, String.data_append] at hdata
  have hrepr : (Nat.repr a).data = (Nat.repr b).data := List.append_cancel_left hdata
  exact natRepr_injective (String.ext hrepr)

/-- Setting one key leaves the other keys unchanged. -/
theorem dictGet_dictSet_ne (σ : GeoState) (k u : String) (v : List Observation)
    (h : k ≠ u) : dictGet (dictSet σ k v) u = dictGet σ u := by
  induction σ with
  | nil => simp [dictSet, dictGet, h]
  | cons p ps ih =>
    by_cases hp : p.1 = k
    · have hpu : p.1 ≠ u := by rw [hp]; exact h
      simp [dictSet, dictGet, hp, h, hpu]
    · simp [dictSet, dictGet, hp, ih]

/-- Deleting one key leaves the other keys unchanged. -/
theorem dictGet_dictDelete_ne (σ : GeoState) (k u : String) (h : k ≠ u) :
    dictGet (dictDelete σ k) u = dictGet σ u := by
  induction σ with
  | nil => rfl
  | cons p ps ih =>
    by_cases hp : p.1 = k
    · have hpu : p.1 ≠ u := by rw [hp]; exact h
      simp [dictDelete, dictGet, hp, hpu, h]
    · simp [dictDelete, dictGet, hp, ih]

/-- An `add_observation` call for another target does not change a target's
bucket length. -/
theorem bucketLen_add_other (σ : GeoState) (u t : String) (p : DronePosition)
    (b e c : ℝ) (h : u ≠ t) :
    bucketLen (applyOp σ (GeoOp.addObs u p b e c)) t = bucketLen σ t := by
  simp [applyOp, addObservation, bucketLen, dictGet_dictSet_ne σ u t _ h]

/-- An `add_observation` call for a target grows its bucket length by one. -/
theorem bucketLen_add_self (σ : GeoState) (t : String) (p : DronePosition) (b e c : ℝ) :
    bucketLen (applyOp σ (GeoOp.addObs t p b e c)) t = bucketLen σ t + 1 := by
  simp [applyOp, addObservation, bucketLen, dictGet_dictSet_self]

/-- A `reset_target` call for another target does not change a target's
bucket length. -/
theorem bucketLen_reset_other (σ : GeoState) (u t : String) (h : u ≠ t) :
    bucketLen (applyOp σ (GeoOp.reset u)) t = bucketLen σ t := by
  simp only [applyOp, resetTarget]
  by_cases hs : (dictGet σ u).isSome <;>
    simp [hs, bucketLen, dictGet_dictDelete_ne σ u t h]

/-- A `create_target` call allocating another id does not change a target's
bucket length. -/
theorem bucketLen_create_other (σ : GeoState) (k t : String) (h : k ≠ t) :
    bucketLen (applyOp σ (GeoOp.create k)) t = bucketLen σ t := by
  simp [applyOp, createTarget, bucketLen, dictGet_dictSet_ne σ k t _ h]

/-- Along a call sequence that never resets target `t` and never re-creates
its id, the ids returned by the `add_observation` calls for `t` are exactly
`obsId t` applied to consecutive indices starting at the current bucket
length. -/
theorem addedIds_formula (t : String) :
    ∀ (ops : List GeoOp) (σ : GeoState),
      (∀ op ∈ ops, ¬ interferes t op) →
      addedIds σ t ops =
        (List.range (numAdds t ops)).map fun i => obsId t (bucketLen σ t + i) := by
  intro ops
  induction ops with
  | nil => intro σ _; simp [addedIds, numAdds]
  | cons op rest ih =>
    intro σ h
    have hrest : ∀ o ∈ rest, ¬ interferes t o := fun o ho => h o (List.mem_cons_of_mem _ ho)
    cases op with
    | addObs u p b e c =>
      by_cases hu : u = t
      · subst hu
        simp only [addedIds, numAdds, eq_self_iff_true, if_true]
        rw [ih _ hrest, bucketLen_add_self]
        rw [show 1 + numAdds u rest = numAdds u rest + 1 from Nat.add_comm _ _,
          List.range_succ_eq_map]
        simp only [List.map_cons, List.map_map, List.singleton_append, Nat.add_zero]
        congr 1
        refine List.map_congr_left fun i _ => ?_
        simp only [Function.comp_apply]
        congr 1
        omega
      · simp only [addedIds, if_neg hu, List.nil_append, numAdds, if_neg hu, Nat.zero_add]
        rw [ih _ hrest, bucketLen_add_other σ u t p b e c hu]
    | reset u =>
      have hu : u ≠ t := by
        have := h _ (List.mem_cons_self _ _)
        simpa [interferes] using this
      simp only [addedIds, List.nil_append, numAdds]
      rw [ih _ hrest, bucketLen_reset_other σ u t hu]
    | create k =>
      have hk : k ≠ t := by
        have := h _ (List.mem_cons_self _ _)
        simpa [interferes] using this
      simp only [addedIds, List.nil_append, numAdds]
      rw [ih _ hrest, bucketLen_create_other σ k t hk]

/-- C9 counterexample: adding an observation, resetting the target and adding
again returns the id `tA_0` twice — the same observation id for two distinct
`add_observation` calls with the same target. -/
theorem addedIds_reset_counterexample :
    addedIds dictEmpty targetA
        [GeoOp.addObs targetA ⟨40, -74, 100⟩ 0 30 1, GeoOp.reset targetA,
         GeoOp.addObs targetA ⟨40, -74, 100⟩ 0 30 1] =
      [obsId targetA 0, obsId targetA 0] ∧
    ¬ (addedIds dictEmpty targetA
        [GeoOp.addObs targetA ⟨40, -74, 100⟩ 0 30 1, GeoOp.reset targetA,
         GeoOp.addObs targetA ⟨40, -74, 100⟩ 0 30 1]).Nodup := by
  have he : addedIds dictEmpty targetA
      [GeoOp.addObs targetA ⟨40, -74, 100⟩ 0 30 1, GeoOp.reset targetA,
       GeoOp.addObs targetA ⟨40, -74, 100⟩ 0 30 1] =
      [obsId targetA 0, obsId targetA 0] := rfl
  exact ⟨he, by rw [he]; simp⟩

/-- C9 amended: for every call sequence containing no `reset_target` of `t`
and no `create_target` allocating `t`, the observation ids returned by the
`add_observation` calls for `t` are pairwise distinct. -/
theorem addedIds_nodup (ops : List GeoOp) (t : String)
    (h : ∀ op ∈ ops, ¬ interferes t op) :
    (addedIds dictEmpty t ops).Nodup := by
  rw [addedIds_formula t ops dictEmpty h]
  refine List.Nodup.map ?_ (List.nodup_range _)
  intro a b hab
  exact Nat.add_left_cancel (obsId_injective t hab)

/-- Witness for C9 on a three-call sequence (two adds for `tA`, one reset of
the unrelated `tB`). -/
theorem addedIds_nodup_witness :
    (addedIds dictEmpty targetA
        [GeoOp.addObs targetA ⟨40, -74, 100⟩ 0 30 1,
         GeoOp.addObs targetA ⟨41, -75, 120⟩ 90 45 1,
         GeoOp.reset targetB]).Nodup :=
  addedIds_nodup _ targetA (by
    intro op hop
    fin_cases hop <;> simp [interferes, targetA, targetB])
